import Mathlib

/-!
Shallow embedding of the onboarding chatbot core from
`src/backend/ai_chatbot_handler.py` (class `AIChatbotHandler`), together with
proofs about the claims of the specification.

Modelling conventions:

* SQLAlchemy nullable columns become `Option` fields.
* Python truthiness on an optional string column (`if not x`) is
  `optStrTruthy`; on an optional integer column the code always tests
  `is None`, which is `Option.isNone`.
* The JSON tool-call arguments are modelled by their behavioural quotient:
  for a string-typed argument only "key absent", "null" and "string s" are
  distinguishable (`SArg`); for an integer-typed argument only "key absent",
  "null", "int(v) succeeds with n" and "int(v) raises" are distinguishable
  (`NArg`).
* The product draft is stored by the code as a JSON-serialised dict; we model
  the parsed dict as an insertion-ordered association list (`Draft`), which is
  exactly the information content of the serialised blob.
* The database session is modelled by explicit state passing: an
  `OnboardingRec`, the list of `Product` rows of that record (in insertion
  order, as returned by the relationship), and the chat-session status.
* The OpenAI call (`extract_data_with_ai`) is an external network service; its
  result is an input of `process_message` here (`AiResult`).
* The non-ASCII string literals of the source file are mojibake-damaged
  (UTF-8 read under a Windows codepage and re-encoded, with several bytes
  lost); the Chinese literals below are the reconstructed intended text.
  No theorem in this file depends on the exact contents of a display string
  except through which display name is chosen, which is unaffected.
-/

namespace ChatbotHandler

/-- Source `OnboardingStage` enum from models: the ordered onboarding stages. -/
inductive Stage
  | INDUSTRY
  | CAPITAL_AMOUNT
  | INVENTION_PATENT_COUNT
  | UTILITY_PATENT_COUNT
  | CERTIFICATION_COUNT
  | ESG_CERTIFICATION
  | PRODUCT
  | COMPLETED
deriving DecidableEq, Repr

/-- Source `ProductField` enum from models: the ordered product fields. -/
inductive ProductField
  | PRODUCT_ID
  | PRODUCT_NAME
  | PRICE
  | MAIN_RAW_MATERIALS
  | PRODUCT_STANDARD
  | TECHNICAL_ADVANTAGES
deriving DecidableEq, Repr

/-- Source `ChatSessionStatus` enum from models. -/
inductive SessionStatus
  | ACTIVE
  | COMPLETED
  | ABANDONED
deriving DecidableEq, Repr

/-- Source `STAGE_ORDER`: stage order for company data collection. -/
def STAGE_ORDER : List Stage :=
  [.INDUSTRY, .CAPITAL_AMOUNT, .INVENTION_PATENT_COUNT, .UTILITY_PATENT_COUNT,
   .CERTIFICATION_COUNT, .ESG_CERTIFICATION, .PRODUCT, .COMPLETED]

/-- Source `PRODUCT_FIELD_ORDER`: product field order. -/
def PRODUCT_FIELD_ORDER : List ProductField :=
  [.PRODUCT_ID, .PRODUCT_NAME, .PRICE, .MAIN_RAW_MATERIALS, .PRODUCT_STANDARD,
   .TECHNICAL_ADVANTAGES]

/-- Source enum `.value` string of a `ProductField` member. -/
def pfValue : ProductField → String
  | .PRODUCT_ID => "product_id"
  | .PRODUCT_NAME => "product_name"
  | .PRICE => "price"
  | .MAIN_RAW_MATERIALS => "main_raw_materials"
  | .PRODUCT_STANDARD => "product_standard"
  | .TECHNICAL_ADVANTAGES => "technical_advantages"

/-- Source `STAGE_TO_FIELD` dict (`.get` semantics: `none` for PRODUCT/COMPLETED). -/
def STAGE_TO_FIELD : Stage → Option String
  | .INDUSTRY => some "industry"
  | .CAPITAL_AMOUNT => some "capital_amount"
  | .INVENTION_PATENT_COUNT => some "invention_patent_count"
  | .UTILITY_PATENT_COUNT => some "utility_patent_count"
  | .CERTIFICATION_COUNT => some "certification_count"
  | .ESG_CERTIFICATION => some "esg_certification"
  | _ => none

/-- Source `STAGE_TO_DISPLAY_NAME` dict (Chinese display names, `.get` semantics). -/
def STAGE_TO_DISPLAY_NAME : Stage → Option String
  | .INDUSTRY => some "產業別"
  | .CAPITAL_AMOUNT => some "資本總額"
  | .INVENTION_PATENT_COUNT => some "發明專利數量"
  | .UTILITY_PATENT_COUNT => some "新型專利數量"
  | .CERTIFICATION_COUNT => some "公司認證資料數量"
  | .ESG_CERTIFICATION => some "ESG相關認證"
  | .PRODUCT => some "產品資訊"
  | .COMPLETED => none

/-- Source `PRODUCT_FIELD_TO_DISPLAY_NAME` dict. -/
def PRODUCT_FIELD_TO_DISPLAY_NAME : ProductField → Option String
  | .PRODUCT_ID => some "產品ID"
  | .PRODUCT_NAME => some "產品名稱"
  | .PRICE => some "價格"
  | .MAIN_RAW_MATERIALS => some "主要原料"
  | .PRODUCT_STANDARD => some "產品規格"
  | .TECHNICAL_ADVANTAGES => some "技術優勢"

/-- The parsed form of the JSON draft blob `current_product_draft`: an
insertion-ordered association list, mirroring a Python dict. -/
abbrev Draft := List (String × String)

/-- Python `dict.get`: first binding of the key. -/
def draftGet (d : Draft) (k : String) : Option String :=
  (d.find? (fun p => p.1 = k)).map (fun p => p.2)

/-- Python `d[k] = v`: replace in place if present, else append. -/
def draftSet (d : Draft) (k : String) (v : String) : Draft :=
  if d.any (fun p => p.1 = k) then
    d.map (fun p => if p.1 = k then (k, v) else p)
  else d ++ [(k, v)]

/-- One row of the `Product` table (the six nullable text columns). -/
structure Product where
  product_id : Option String := none
  product_name : Option String := none
  price : Option String := none
  main_raw_materials : Option String := none
  product_standard : Option String := none
  technical_advantages : Option String := none
deriving DecidableEq, Repr

/-- One `CompanyOnboarding` row: the scalar company attributes plus the
state-machine columns. -/
structure OnboardingRec where
  industry : Option String := none
  capital_amount : Option Int := none
  invention_patent_count : Option Int := none
  utility_patent_count : Option Int := none
  certification_count : Option Int := none
  esg_certification : Option String := none
  esg_certification_count : Option Int := none
  current_stage : Option Stage := none
  current_product_field : Option ProductField := none
  current_product_draft : Option Draft := none
deriving DecidableEq, Repr

/-- Python truthiness of a nullable string column: `None` and `""` are falsy. -/
def optStrTruthy : Option String → Bool
  | none => false
  | some s => s ≠ ""

/-- The session-visible state one turn operates on: the chat-session status,
the current onboarding record, and its product rows. -/
structure ChatState where
  status : SessionStatus
  onboarding_data : OnboardingRec
  products : List Product
deriving DecidableEq, Repr

/-- Source `get_current_stage`: stored stage, defaulting to INDUSTRY when unset. -/
def get_current_stage (r : OnboardingRec) : Stage :=
  r.current_stage.getD .INDUSTRY

/-- Source `get_expected_field`. -/
def get_expected_field (r : OnboardingRec) : Option String :=
  match get_current_stage r with
  | .PRODUCT =>
      match r.current_product_field with
      | some pf => some (pfValue pf)
      | none => some (pfValue .PRODUCT_ID)
  | .COMPLETED => none
  | s => STAGE_TO_FIELD s

/-- Source `get_expected_tool`. -/
def get_expected_tool (r : OnboardingRec) : String :=
  match get_current_stage r with
  | .PRODUCT => "collect_product_field"
  | .COMPLETED => "mark_completed"
  | _ => "update_company_data"

/-- Source `list.index`-style lookup used by `advance_stage`/`advance_product_field`. -/
def idxIn {α : Type} [DecidableEq α] : List α → α → Option Nat
  | [], _ => none
  | x :: rest, a => if x = a then some 0 else (idxIn rest a).map (fun n => n + 1)

/-- Source `reset_product_draft`. -/
def reset_product_draft (r : OnboardingRec) : OnboardingRec :=
  { r with current_product_field := some .PRODUCT_ID,
           current_product_draft := some ([] : Draft) }

/-- Source `advance_stage`: move to the next stage in `STAGE_ORDER`; entering PRODUCT
resets the product sub-machine. Stays put on the last stage. -/
def advance_stage (r : OnboardingRec) : OnboardingRec :=
  let cur := get_current_stage r
  match idxIn STAGE_ORDER cur with
  | some i =>
      if i < STAGE_ORDER.length - 1 then
        match STAGE_ORDER.get? (i + 1) with
        | some next =>
            let r1 := { r with current_stage := some next }
            if next = .PRODUCT then
              { r1 with current_product_field := some .PRODUCT_ID,
                        current_product_draft := some ([] : Draft) }
            else r1
        | none => r
      else r
  | none => r

/-- Source `advance_product_field`: move to the next product field; returns the new
field, or `none` (record untouched) when already at the last field. -/
def advance_product_field (r : OnboardingRec) : OnboardingRec × Option ProductField :=
  let cur := r.current_product_field.getD .PRODUCT_ID
  match idxIn PRODUCT_FIELD_ORDER cur with
  | some i =>
      if i < PRODUCT_FIELD_ORDER.length - 1 then
        match PRODUCT_FIELD_ORDER.get? (i + 1) with
        | some next => ({ r with current_product_field := some next }, some next)
        | none => (r, none)
      else (r, none)
  | none => (r, none)

/-- Source `get_product_draft`: parsed draft, `{}` when the column is NULL/empty. -/
def get_product_draft (r : OnboardingRec) : Draft :=
  match r.current_product_draft with
  | none => []
  | some d => d

/-- Source `update_product_draft`. -/
def update_product_draft (r : OnboardingRec) (field value : String) : OnboardingRec :=
  { r with current_product_draft := some (draftSet (get_product_draft r) field value) }

/-- Source `is_product_draft_complete`: all six required draft values truthy. -/
def is_product_draft_complete (r : OnboardingRec) : Bool :=
  PRODUCT_FIELD_ORDER.all
    (fun f => optStrTruthy (draftGet (get_product_draft r) (pfValue f)))

/-- Source `sync_stage_with_data`: recompute `current_stage` from which scalar
attributes are populated, in fixed priority order; entering PRODUCT with no
current product field also resets the product sub-machine. -/
def sync_stage_with_data (r : OnboardingRec) : OnboardingRec :=
  if !(optStrTruthy r.industry) then
    { r with current_stage := some .INDUSTRY }
  else if r.capital_amount.isNone then
    { r with current_stage := some .CAPITAL_AMOUNT }
  else if r.invention_patent_count.isNone then
    { r with current_stage := some .INVENTION_PATENT_COUNT }
  else if r.utility_patent_count.isNone then
    { r with current_stage := some .UTILITY_PATENT_COUNT }
  else if r.certification_count.isNone then
    { r with current_stage := some .CERTIFICATION_COUNT }
  else if !(optStrTruthy r.esg_certification) then
    { r with current_stage := some .ESG_CERTIFICATION }
  else
    let r1 := { r with current_stage := some Stage.PRODUCT }
    if r1.current_product_field.isNone then
      { r1 with current_product_field := some .PRODUCT_ID,
                current_product_draft := some ([] : Draft) }
    else r1

/-- Source `_count_esg_certifications` separator set: comma, Chinese comma, semicolon,
Chinese semicolon, newline. -/
def esgSeparator (c : Char) : Bool :=
  c = ',' || c = '，' || c = ';' || c = '；' || c = '\n'

/-- Python `str.strip` whitespace class (the ASCII whitespace characters). -/
def pyStripChar (c : Char) : Bool :=
  c = ' ' || c = '\t' || c = '\n' || c = '\r' || c = '\x0b' || c = '\x0c'

/-- Python `str.strip` over the character list of a string. -/
def trimChars (cs : List Char) : List Char :=
  ((cs.dropWhile pyStripChar).reverse.dropWhile pyStripChar).reverse

/-- Pieces of a character list between characters matching `p` (`re.split`
on a character class; consecutive separators give empty pieces, which the
caller filters out exactly as the source does). -/
def splitBy (p : Char → Bool) : List Char → List (List Char)
  | [] => [[]]
  | c :: rest =>
      match splitBy p rest with
      | [] => [[]]
      | g :: gs => if p c then [] :: g :: gs else (c :: g) :: gs

/-- Source `_count_esg_certifications`: 0 for an empty/blacklisted string, otherwise
the number of non-blank separator-delimited pieces. -/
def count_esg_certifications (s : String) : Nat :=
  let lowered := (trimChars s.data).map Char.toLower
  if s.data = [] ||
     ["無".data, "没有".data, "none".data, "-".data].contains lowered then 0
  else
    (((splitBy esgSeparator s.data).map trimChars).filter
      (fun cs => cs ≠ [])).length

/-- Behavioural quotient of a JSON value read as a string-typed argument:
key absent, JSON null, or a string. -/
inductive SArg
  | absent
  | snull
  | sval (s : String)
deriving DecidableEq, Repr

/-- Behavioural quotient of a JSON value read as an integer-typed argument
(the code tests `is not None` and then applies `int(...)`): key absent, JSON
null, `int(...)` succeeding with `n`, or `int(...)` raising. -/
inductive NArg
  | absent
  | nnull
  | nval (n : Int)
  | nbad
deriving DecidableEq, Repr

/-- The argument dict of an `update_company_data` tool call, with one slot per
key the dispatcher reads.  `esg_certification_count` is part of the tool
schema but `update_onboarding_data` never reads it. -/
structure UpdateArgs where
  industry : SArg := .absent
  capital_amount : NArg := .absent
  invention_patent_count : NArg := .absent
  utility_patent_count : NArg := .absent
  certification_count : NArg := .absent
  esg_certification : SArg := .absent
  esg_certification_count : NArg := .absent
deriving DecidableEq, Repr

/-- Statement `if "industry" in data and data["industry"]: ... updated = True`
over the running (record, updated) pair. -/
def upd_industry (a : SArg) (p : OnboardingRec × Bool) : OnboardingRec × Bool :=
  match a with
  | .sval s => if s ≠ "" then ({ p.1 with industry := some s }, true) else p
  | _ => p

/-- Statement `if "capital_amount" in data and data["capital_amount"] is not
None: ... int(...)`; `nbad` raises. -/
def upd_capital (a : NArg) (p : OnboardingRec × Bool) :
    Except Unit (OnboardingRec × Bool) :=
  match a with
  | .nval n => .ok ({ p.1 with capital_amount := some n }, true)
  | .nbad => .error ()
  | _ => .ok p

/-- Statement for `invention_patent_count`. -/
def upd_invention (a : NArg) (p : OnboardingRec × Bool) :
    Except Unit (OnboardingRec × Bool) :=
  match a with
  | .nval n => .ok ({ p.1 with invention_patent_count := some n }, true)
  | .nbad => .error ()
  | _ => .ok p

/-- Statement for `utility_patent_count`. -/
def upd_utility (a : NArg) (p : OnboardingRec × Bool) :
    Except Unit (OnboardingRec × Bool) :=
  match a with
  | .nval n => .ok ({ p.1 with utility_patent_count := some n }, true)
  | .nbad => .error ()
  | _ => .ok p

/-- Statement for `certification_count`. -/
def upd_certification (a : NArg) (p : OnboardingRec × Bool) :
    Except Unit (OnboardingRec × Bool) :=
  match a with
  | .nval n => .ok ({ p.1 with certification_count := some n }, true)
  | .nbad => .error ()
  | _ => .ok p

/-- The atomic ESG statement: when a truthy `esg_certification` string is
supplied, store it and the count recomputed from it.  The
`esg_certification_count` argument is intentionally never read. -/
def upd_esg (a : SArg) (p : OnboardingRec × Bool) : OnboardingRec × Bool :=
  match a with
  | .sval s =>
      if s ≠ "" then
        ({ p.1 with
           esg_certification := some s,
           esg_certification_count := some (count_esg_certifications s : Int) },
         true)
      else p
  | _ => p

/-- Body of `update_onboarding_data` before its `except` clause: the five
field statements in source order followed by the atomic ESG statement;
`Except.error` marks a raised exception (an integer-typed value on which
`int(...)` raises). -/
def update_onboarding_data_body (r : OnboardingRec) (data : UpdateArgs) :
    Except Unit (OnboardingRec × Bool) := do
  let p1 := upd_industry data.industry (r, false)
  let p2 ← upd_capital data.capital_amount p1
  let p3 ← upd_invention data.invention_patent_count p2
  let p4 ← upd_utility data.utility_patent_count p3
  let p5 ← upd_certification data.certification_count p4
  return upd_esg data.esg_certification p5

/-- Source `update_onboarding_data`: on exception the DB session is rolled back, so
the record is unchanged and the call reports `false`. -/
def update_onboarding_data (r : OnboardingRec) (data : UpdateArgs) :
    OnboardingRec × Bool :=
  match update_onboarding_data_body r data with
  | .ok p => p
  | .error _ => (r, false)

/-- The ESG consistency invariant of the spec: the stored count is the
recomputed separator count of the stored certification string (both unset on
a fresh record). -/
def esg_in_sync (r : OnboardingRec) : Prop :=
  r.esg_certification_count =
    r.esg_certification.map (fun s => (count_esg_certifications s : Int))

/-- Source `db.query(Product).filter(onboarding_id == ..., product_id == pid).first()`
restricted to the record's own rows. -/
def findProduct (ps : List Product) (pid : String) : Option Product :=
  ps.find? (fun p => p.product_id = some pid)

/-- In-place update of the first row whose `product_id` is `pid` (SQLAlchemy
mutates the fetched row; its position is unchanged). -/
def replaceProduct (ps : List Product) (pid : String) (nw : Product) : List Product :=
  match ps with
  | [] => []
  | p :: rest =>
      if p.product_id = some pid then nw :: rest
      else p :: replaceProduct rest pid nw

/-- Python `a or b` on optional strings (used by `add_product`'s merge). -/
def orTruthy (nw old : Option String) : Option String :=
  match nw with
  | some v => if v = "" then old else some v
  | none => old

/-- The `product_data` dict handed to `add_product`: `none` models an absent
key or JSON null (both falsy and both read back as `None` by `.get`). -/
structure ProdArgs where
  product_id : Option String := none
  product_name : Option String := none
  price : Option String := none
  main_raw_materials : Option String := none
  product_standard : Option String := none
  technical_advantages : Option String := none
deriving DecidableEq, Repr

/-- Truthiness of one incoming product value. -/
def prodArgTruthy : Option String → Bool
  | none => false
  | some s => s ≠ ""

/-- Source `required_fields` of `add_product`: field key to display name, in dict
order. -/
def required_fields : List (String × String) :=
  [("product_id", "產品ID"), ("product_name", "產品名稱"), ("price", "價格"),
   ("main_raw_materials", "主要原料"), ("product_standard", "產品規格"),
   ("technical_advantages", "技術優勢")]

/-- Value of one key of a `ProdArgs` dict (`.get` semantics). -/
def prodArgGet (a : ProdArgs) (k : String) : Option String :=
  if k = "product_id" then a.product_id
  else if k = "product_name" then a.product_name
  else if k = "price" then a.price
  else if k = "main_raw_materials" then a.main_raw_materials
  else if k = "product_standard" then a.product_standard
  else if k = "technical_advantages" then a.technical_advantages
  else none

/-- The missing-field display names collected by `add_product`'s validation
loop, in `required_fields` order. -/
def add_product_missing (a : ProdArgs) : List String :=
  (required_fields.filter (fun kv => !(prodArgTruthy (prodArgGet a kv.1)))).map
    (fun kv => kv.2)

/-- Source `add_product`: validate all six fields, then update an existing row with
the same `product_id` in place (each field overwritten only by a truthy new
value) or append a new row.
Returns (new rows, product, was_updated, missing display names). -/
def add_product (ps : List Product) (a : ProdArgs) :
    List Product × Option Product × Bool × List String :=
  let missing := add_product_missing a
  if missing ≠ [] then (ps, none, false, missing)
  else
    let create : List Product × Option Product × Bool × List String :=
      let nw : Product :=
        { product_id := a.product_id
          product_name := a.product_name
          price := a.price
          main_raw_materials := a.main_raw_materials
          product_standard := a.product_standard
          technical_advantages := a.technical_advantages }
      (ps ++ [nw], some nw, false, [])
    match a.product_id with
    | some pid =>
        if pid ≠ "" then
          match findProduct ps pid with
          | some existing =>
              let upd : Product :=
                { existing with
                  product_name := orTruthy a.product_name existing.product_name
                  price := orTruthy a.price existing.price
                  main_raw_materials :=
                    orTruthy a.main_raw_materials existing.main_raw_materials
                  product_standard :=
                    orTruthy a.product_standard existing.product_standard
                  technical_advantages :=
                    orTruthy a.technical_advantages existing.technical_advantages }
              (replaceProduct ps pid upd, some upd, true, [])
          | none => create
        else create
    | none => create

/-- Source `save_product_from_draft`: persist a complete draft, merging into an
existing row with the same `product_id` (unconditional overwrite of the five
non-key fields) or creating a new row; resets the draft afterwards.  Returns
the unchanged state and `none` when the draft is incomplete. -/
def save_product_from_draft (r : OnboardingRec) (ps : List Product) :
    OnboardingRec × List Product × Option Product :=
  let draft := get_product_draft r
  if !(is_product_draft_complete r) then (r, ps, none)
  else
    let pid? := draftGet draft "product_id"
    let existing :=
      match pid? with
      | some pid => if pid ≠ "" then findProduct ps pid else none
      | none => none
    match existing, pid? with
    | some old, some pid =>
        let upd : Product :=
          { old with
            product_name := draftGet draft "product_name"
            price := draftGet draft "price"
            main_raw_materials := draftGet draft "main_raw_materials"
            product_standard := draftGet draft "product_standard"
            technical_advantages := draftGet draft "technical_advantages" }
        (reset_product_draft r, replaceProduct ps pid upd, some upd)
    | _, _ =>
        let nw : Product :=
          { product_id := draftGet draft "product_id"
            product_name := draftGet draft "product_name"
            price := draftGet draft "price"
            main_raw_materials := draftGet draft "main_raw_materials"
            product_standard := draftGet draft "product_standard"
            technical_advantages := draftGet draft "technical_advantages" }
        (reset_product_draft r, ps ++ [nw], some nw)

/-! Reply builders.  These mirror the handler's string-producing methods; the
Chinese literals are the reconstructed intended text of the mojibake-damaged
source (see the file header). -/

/-- Python format of an optional integer under an `is not None` test. -/
def intOrD (v : Option Int) (d : String) : String :=
  match v with
  | some n => toString n
  | none => d

/-- Python format of an optional integer under an `x or default` test
(`0` is falsy). -/
def intTruthyOrD (v : Option Int) (d : String) : String :=
  match v with
  | some n => if n = 0 then d else toString n
  | none => d

/-- Python format of an optional string under an `x or default` test. -/
def strOrD (v : Option String) (d : String) : String :=
  match v with
  | some s => if s = "" then d else s
  | none => d

/-- The box-drawing separator line used by all summary templates. -/
def sepLine : String := "══════════════════════════════"

/-- Python `needle in haystack` substring test. -/
def strContains (hay needle : String) : Bool :=
  needle = "" || (hay.splitOn needle).length > 1

/-- Result dict of `get_progress`. -/
structure Progress where
  company_info_complete : Bool
  fields_completed : Nat
  total_fields : Nat
  products_count : Nat
deriving DecidableEq, Repr

/-- Source `get_progress`: count of the six filled company fields (ESG counts
once, via the certification string) plus the product count. -/
def get_progress (r : OnboardingRec) (ps : List Product) : Progress :=
  let fields_completed :=
    (if optStrTruthy r.industry then 1 else 0) +
    (if r.capital_amount.isSome then 1 else 0) +
    (if r.invention_patent_count.isSome then 1 else 0) +
    (if r.utility_patent_count.isSome then 1 else 0) +
    (if r.certification_count.isSome then 1 else 0) +
    (if optStrTruthy r.esg_certification then 1 else 0)
  { company_info_complete := fields_completed = 6
    fields_completed := fields_completed
    total_fields := 6
    products_count := ps.length }

/-- Source `get_company_summary`. -/
def get_company_summary (r : OnboardingRec) : String :=
  "\n" ++ sepLine ++ "\n🏢 公司基本資料：\n" ++ sepLine ++ "\n" ++
  "  • 產業別：" ++ strOrD r.industry "未填寫" ++ "\n" ++
  "  • 資本總額：" ++ intTruthyOrD r.capital_amount "未填寫" ++ "\n" ++
  "  • 發明專利數量：" ++ intOrD r.invention_patent_count "未填寫" ++ "\n" ++
  "  • 新型專利數量：" ++ intOrD r.utility_patent_count "未填寫" ++ "\n" ++
  "  • 公司認證資料數量：" ++ intOrD r.certification_count "未填寫" ++ "\n" ++
  "  • ESG相關認證數量：" ++ intOrD r.esg_certification_count "未填寫" ++ "\n" ++
  "  • ESG相關認證資料：" ++ strOrD r.esg_certification "未填寫" ++ "\n"

/-- Item lines of `get_products_summary`, numbered from `idx`. -/
def products_summary_items : Nat → List Product → String
  | _, [] => ""
  | idx, p :: rest =>
      "\n**產品 " ++ toString idx ++ "**：" ++ strOrD p.product_name "未命名" ++ "\n" ++
      "  • 產品ID：" ++ strOrD p.product_id "-" ++ "\n" ++
      "  • 價格：" ++ strOrD p.price "-" ++ "\n" ++
      "  • 主要原料：" ++ strOrD p.main_raw_materials "-" ++ "\n" ++
      "  • 規格：" ++ strOrD p.product_standard "-" ++ "\n" ++
      "  • 技術優勢：" ++ strOrD p.technical_advantages "-" ++ "\n" ++
      products_summary_items (idx + 1) rest

/-- Source `get_products_summary`: empty string when the record has no
products. -/
def get_products_summary (ps : List Product) : String :=
  if ps = [] then ""
  else
    "\n" ++ sepLine ++ "\n📋 已記錄的產品列表（共 " ++ toString ps.length ++
    " 個）：\n" ++ sepLine ++ "\n" ++ products_summary_items 1 ps

/-- Per-product detail block of `get_current_data_summary`. -/
def current_data_product_info (idx : Nat) (p : Product) : String :=
  String.intercalate "\n"
    ([sappend "  產品 " (toString idx) ":"] ++
     (match p.product_id with
      | some s => if s ≠ "" then ["    - 產品ID: " ++ s] else []
      | none => []) ++
     (match p.product_name with
      | some s => if s ≠ "" then ["    - 產品名稱: " ++ s] else []
      | none => []) ++
     (match p.price with
      | some s => if s ≠ "" then ["    - 價格: " ++ s] else []
      | none => []) ++
     (match p.main_raw_materials with
      | some s => if s ≠ "" then ["    - 主要原料: " ++ s] else []
      | none => []) ++
     (match p.product_standard with
      | some s => if s ≠ "" then ["    - 產品規格: " ++ s] else []
      | none => []) ++
     (match p.technical_advantages with
      | some s => if s ≠ "" then ["    - 技術優勢: " ++ s] else []
      | none => []))
where sappend (a b c : String) : String := a ++ b ++ c

/-- Numbered product info blocks of `get_current_data_summary`. -/
def current_data_product_items : Nat → List Product → List String
  | _, [] => []
  | idx, p :: rest =>
      current_data_product_info idx p :: current_data_product_items (idx + 1) rest

/-- Source `get_current_data_summary`. -/
def get_current_data_summary (r : OnboardingRec) (ps : List Product) : String :=
  let data : List String :=
    (if optStrTruthy r.industry then
       ["產業別: " ++ strOrD r.industry ""] else []) ++
    (match r.capital_amount with
     | some n => ["資本總額: " ++ toString n ++ " 臺幣"]
     | none => []) ++
    (match r.invention_patent_count with
     | some n => ["發明專利: " ++ toString n ++ "件"]
     | none => []) ++
    (match r.utility_patent_count with
     | some n => ["新型專利: " ++ toString n ++ "件"]
     | none => []) ++
    (match r.certification_count with
     | some n => ["公司認證資料: " ++ toString n ++ "份"]
     | none => []) ++
    (match r.esg_certification_count with
     | some n => ["ESG認證數量: " ++ toString n ++ "份"]
     | none => []) ++
    (if optStrTruthy r.esg_certification then
       ["ESG認證: " ++ strOrD r.esg_certification ""] else []) ++
    (if ps ≠ [] then
       ["\n產品數量: " ++ toString ps.length ++ "個", "產品明細:"] ++
       current_data_product_items 1 ps
     else [])
  if data = [] then "尚未收集任何資料"
  else String.intercalate "\n" data

/-- Source `get_next_field_question`: ask for the first missing field, or the
product prompt once the six company fields are complete. -/
def get_next_field_question (r : OnboardingRec) (ps : List Product) : String :=
  let progress := get_progress r ps
  let progress_str :=
    "【進度：" ++ toString progress.fields_completed ++ "/" ++
    toString progress.total_fields ++ " 已完成】"
  if !(optStrTruthy r.industry) then
    progress_str ++ "\n請問您的公司所屬產業別是什麼？（例如：食品業、鋼鐵業、電子業等）"
  else if r.capital_amount.isNone then
    progress_str ++ "\n請問您的公司資本總額是多少？（以臺幣為單位）"
  else if r.invention_patent_count.isNone then
    progress_str ++ "\n請問貴公司有多少**發明專利**？（請提供數量）\n\n💡 發明專利是什麼？\n發明專利是針對「技術方案」的專利，包括產品發明（如新材料、新裝置）或方法發明（如製程、配方）。保護期限為20年，是技術創新能力的重要指標。"
  else if r.utility_patent_count.isNone then
    progress_str ++ "\n請問貴公司有多少**新型專利**？（請提供數量）\n\n💡 新型專利是什麼？\n新型專利是針對產品「形狀、構造」的專利，例如機械結構改良、零件設計等。保護期限為10年，審查較快速，適合產品外觀或結構的創新。"
  else if r.certification_count.isNone then
    progress_str ++ "\n請問貴公司有多少公司認證資料？（不包括ESG認證，例如：ISO 9001、HACCP等）"
  else if !(optStrTruthy r.esg_certification) then
    progress_str ++ "\n請列出貴公司所有ESG相關認證（例如：ISO 14064, ISO 14067, ISO 14046）。如果沒有，請回答「無」。"
  else if ps.length = 0 then
    "🎉 太好了！基本資料已收集完成 " ++ progress_str ++ "\n\n" ++
    sepLine ++ "\n📋 基本資料摘要\n" ++ sepLine ++ "\n" ++
    "• 產業別：" ++ strOrD r.industry "未填寫" ++ "\n" ++
    "• 資本額：" ++ intTruthyOrD r.capital_amount "未填寫" ++ " 臺幣\n" ++
    "• 發明專利：" ++ intOrD r.invention_patent_count "未填寫" ++ " 件\n" ++
    "• 新型專利：" ++ intOrD r.utility_patent_count "未填寫" ++ " 件\n" ++
    "• 公司認證：" ++ intOrD r.certification_count "未填寫" ++ " 項\n" ++
    "• ESG認證：" ++ strOrD r.esg_certification "未填寫" ++ "\n\n" ++
    "接下來請提供產品資訊，讓【推薦引擎】能幫助您曝光產品。\n\n" ++
    "我會逐一詢問每個產品的詳細資訊（共6項）：\n" ++
    "• 產品ID → 產品名稱 → 價格 → 主要原料 → 規格 → 技術優勢\n" ++
    "（如果有多個產品，建議直接跟著格式上傳檔案）\n\n" ++
    "請先提供第一個產品的**產品ID**（例如：PROD001）\n【產品進度：0/6 已填寫】"
  else
    "📦 目前已新增 " ++ toString ps.length ++ " 個產品。" ++ progress_str ++
    get_products_summary ps ++
    "\n\n還有其他產品要新增嗎？如果要新增，請提供新產品的**產品ID** 開始流程或直接上傳文件 （PDF、Word）即可。\n如果資料已完成，請告訴我「完成」。\n\n💡 產品資訊越完整，【推薦引擎】越能精準幫您配對商機！"

/-- Missing-field display names inlined in `get_initial_greeting`. -/
def greeting_missing_fields (r : OnboardingRec) : List String :=
  (if !(optStrTruthy r.industry) then ["產業別"] else []) ++
  (if r.capital_amount.isNone then ["資本總額"] else []) ++
  (if r.invention_patent_count.isNone then ["發明專利數量"] else []) ++
  (if r.utility_patent_count.isNone then ["新型專利數量"] else []) ++
  (if r.certification_count.isNone then ["公司認證資料"] else []) ++
  (if !(optStrTruthy r.esg_certification) then ["ESG相關認證"] else [])

/-- Source `get_initial_greeting`: progress dashboard for a user with
existing data (the current record), otherwise the new-user menu. -/
def get_initial_greeting (r : OnboardingRec) (ps : List Product) : String :=
  if optStrTruthy r.industry then
    let fields_done :=
      (if optStrTruthy r.industry then 1 else 0) +
      (if r.capital_amount.isSome then 1 else 0) +
      (if r.invention_patent_count.isSome then 1 else 0) +
      (if r.utility_patent_count.isSome then 1 else 0) +
      (if r.certification_count.isSome then 1 else 0) +
      (if optStrTruthy r.esg_certification then 1 else 0)
    let missing := greeting_missing_fields r
    let missing_str :=
      if missing ≠ [] then
        "\n\n⚠️ 尚未填寫的資料：" ++ String.intercalate ", " missing
      else ""
    "您好！歡迎回來！🤖\n\n" ++ sepLine ++ "\n" ++
    "📊 資料填寫進度：【" ++ toString fields_done ++ "/6 已完成】\n" ++ sepLine ++ "\n" ++
    "• 產業別：" ++ strOrD r.industry "未填寫" ++ "\n" ++
    "• 資本額：" ++ intTruthyOrD r.capital_amount "未填寫" ++ " 臺幣\n" ++
    "• 發明專利：" ++ intOrD r.invention_patent_count "未填寫" ++ " 件\n" ++
    "• 新型專利：" ++ intOrD r.utility_patent_count "未填寫" ++ " 件\n" ++
    "• 公司認證：" ++ intOrD r.certification_count "未填寫" ++ " 項\n" ++
    "• ESG認證：" ++ strOrD r.esg_certification "未填寫" ++ "\n" ++
    "• 產品數量：" ++ toString ps.length ++ " 項" ++ missing_str ++ "\n\n" ++
    "💡 完整資料可解鎖平臺功能：\n" ++
    "   • 【推薦引擎】- 曝光產品、尋找合作夥伴\n" ++
    "   • 【補助引擎】- 協助申請政府補助案\n\n" ++ sepLine ++ "\n" ++
    "請問您想要：\n\n" ++
    "1️⃣ 更新資料 - 修改或補充現有資料\n" ++
    "2️⃣ 新增產品 - 新增更多產品資訊\n" ++
    "3️⃣ 上傳文件 - 上傳文件來更新資訊\n" ++
    "4️⃣ 查看完整資料 - 查看所有已填寫的資料\n" ++
    "5️⃣ 重新開始 - 清空資料重新填寫\n\n" ++
    "請輸入數字（1-5）或直接說明您的需求。"
  else
    "您好！我是企業導入 AI 助理 🤖\n\n" ++ sepLine ++ "\n" ++
    "📋 為什麼需要填寫公司資料？\n" ++ sepLine ++ "\n" ++
    "填寫完整的公司資料可以幫助我們：\n" ++
    "✅ 了解貴公司的產業屬性與優勢\n" ++
    "✅ 透過【推薦引擎】幫助您曝光產品、尋找合作夥伴\n" ++
    "✅ 使用【補助引擎】協助申請政府補助案\n" ++
    "✅ 精準配對商業機會與資源\n\n" ++ sepLine ++ "\n" ++
    "📝 我們需要收集的資料：\n" ++ sepLine ++ "\n" ++
    "【基本資料】共6項：\n" ++
    "1️⃣ 產業別\n2️⃣ 資本總額\n3️⃣ 發明專利數量\n4️⃣ 新型專利數量\n" ++
    "5️⃣ 公司認證資料\n6️⃣ ESG相關認證\n\n" ++
    "【產品資訊】填完基本資料後收集\n\n" ++
    "💡 您可以用自然的方式回答，也可以上傳文件讓系統自動擷取資料。\n\n" ++
    sepLine ++ "\n" ++
    "讓我們開始吧！【進度：0/6 已完成】\n" ++
    "請問貴公司所屬的產業別是什麼？\n（例如：食品業、鋼鐵業、電子業等）"

/-- First-turn menu handling of `process_message` (empty history: interpret
the message as a menu choice; the oracle is not invoked). -/
def first_turn_reply (r : OnboardingRec) (ps : List Product)
    (user_message : String) : String :=
  let m := user_message.toLower.trim
  if ["1", "填寫", "填写", "開始", "开始"].any (fun w => strContains m w) then
    "太好了！讓我們開始收集您的公司資料。\n\n請問您的公司所屬產業別是什麼？（例如：食品業、鋼鐵業、電子業等）"
  else if ["2", "進度", "进度", "查看進度"].any (fun w => strContains m w) then
    let progress := get_progress r ps
    "📊 資料填寫進度：\n\n已完成欄位：" ++ toString progress.fields_completed ++
    "/" ++ toString progress.total_fields ++ "\n產品數量：" ++
    toString progress.products_count ++ " 個\n\n" ++
    get_current_data_summary r ps ++ "\n\n您想繼續填寫資料嗎？（是/否）"
  else if ["3", "已填", "查看資料", "查看数据"].any (fun w => strContains m w) then
    "📝 目前已填寫的資料：\n\n" ++ get_current_data_summary r ps ++
    "\n\n您想繼續填寫資料嗎？（是/否）"
  else
    get_initial_greeting r ps

/-! The turn-processing dispatcher of `process_message`. -/

/-- Python `str.isdigit` (restricted to ASCII digits). -/
def pyIsDigit (s : String) : Bool :=
  s.data ≠ [] && s.data.all Char.isDigit

/-- Numeric value of a digit character list. -/
def digitsVal (cs : List Char) : Nat :=
  cs.foldl (fun a c => a * 10 + (c.toNat - 48)) 0

/-- Sign handling of Python numeric literals: an optional leading `-`/`+`. -/
def stripSign : List Char → Bool × List Char
  | '-' :: rest => (true, rest)
  | '+' :: rest => (false, rest)
  | cs => (false, cs)

/-- Python `int(s)` on a string: optional surrounding whitespace, optional
sign, decimal digits; `none` when `int` raises.  (Underscore separators are
not modelled.) -/
def pyParseInt (s : String) : Option Int :=
  let p := stripSign (trimChars s.data)
  if p.2 ≠ [] && p.2.all Char.isDigit then
    some (if p.1 then -(digitsVal p.2 : Int) else (digitsVal p.2 : Int))
  else none

/-- Python `int(float(s))` on a string: plain decimal forms (optional sign,
integer and/or fractional digit part), truncated toward zero; `none` when
`float` raises.  (Exponent/inf/nan forms are not modelled.) -/
def pyParseFloatTrunc (s : String) : Option Int :=
  let p := stripSign (trimChars s.data)
  match splitBy (fun c => c = '.') p.2 with
  | [ip] =>
      if ip ≠ [] && ip.all Char.isDigit then
        some (if p.1 then -(digitsVal ip : Int) else (digitsVal ip : Int))
      else none
  | [ip, fp] =>
      if (ip ≠ [] || fp ≠ []) && ip.all Char.isDigit && fp.all Char.isDigit then
        some (if p.1 then -(digitsVal ip : Int) else (digitsVal ip : Int))
      else none
  | _ => none

/-- One tool call returned by the oracle, dispatched by name.  String-typed
arguments read via `args.get(...)` are `Option String` (`none` = absent or
null); `mark_completed`'s argument is its truthiness.  `unknown` covers any
other tool name (the dispatcher's `if/elif` chain ignores it). -/
inductive ToolCall
  | update_company_data (args : UpdateArgs)
  | collect_product_field (field : Option String) (value : Option String)
  | mark_completed (completed : Bool)
  | add_complete_product (args : ProdArgs)
  | update_product (product_id : Option String) (field : Option String)
      (value : Option String)
  | update_company_field (field : Option String) (value : Option String)
  | view_data (data_type : Option String)
  | unknown (name : String)
deriving DecidableEq, Repr

/-- The local flags of `process_message`'s dispatch loop. -/
structure TurnFlags where
  completed : Bool := false
  data_updated : Bool := false
  product_field_collected : Bool := false
  product_just_saved : Bool := false
  view_data_requested : Bool := false
  view_data_response : String := ""
deriving DecidableEq, Repr

/-- Dispatch of a single tool call (one iteration of the `for call in
function_calls` loop).  `Except.error` is an exception escaping the loop
(the unguarded `int(...)`/`float(...)` coercions of `update_company_field`).
-/
def dispatchCall (st : ChatState) (fl : TurnFlags) :
    ToolCall → Except String (ChatState × TurnFlags)
  | .update_company_data args =>
      let p := update_onboarding_data st.onboarding_data args
      if p.2 then
        .ok (⟨st.status, advance_stage p.1, st.products⟩,
             { fl with data_updated := true })
      else .ok (⟨st.status, p.1, st.products⟩, fl)
  | .collect_product_field field value =>
      match field, value with
      | some f, some v =>
          if f ≠ "" && v ≠ "" then
            let r1 := update_product_draft st.onboarding_data f v
            let fl1 := { fl with product_field_collected := true }
            if is_product_draft_complete r1 then
              let s := save_product_from_draft r1 st.products
              if s.2.2.isSome then
                .ok (⟨st.status, s.1, s.2.1⟩, { fl1 with product_just_saved := true })
              else .ok (⟨st.status, s.1, s.2.1⟩, fl1)
            else
              .ok (⟨st.status, (advance_product_field r1).1, st.products⟩, fl1)
          else .ok (st, fl)
      | _, _ => .ok (st, fl)
  | .mark_completed completed =>
      if completed then
        .ok (⟨.COMPLETED,
              { st.onboarding_data with current_stage := some .COMPLETED },
              st.products⟩,
             { fl with completed := true })
      else .ok (st, fl)
  | .add_complete_product args =>
      let a := add_product st.products args
      if a.2.1.isSome then
        .ok (⟨st.status, reset_product_draft st.onboarding_data, a.1⟩,
             { fl with product_just_saved := true })
      else .ok (⟨st.status, st.onboarding_data, a.1⟩, fl)
  | .update_product product_id field value =>
      match product_id, field, value with
      | some pid, some f, some v =>
          if pid ≠ "" && f ≠ "" && v ≠ "" then
            match findProduct st.products pid with
            | some product =>
                let product1 :=
                  if f = "product_name" then { product with product_name := some v }
                  else if f = "price" then { product with price := some v }
                  else if f = "main_raw_materials" then
                    { product with main_raw_materials := some v }
                  else if f = "product_standard" then
                    { product with product_standard := some v }
                  else if f = "technical_advantages" then
                    { product with technical_advantages := some v }
                  else product
                .ok (⟨st.status, st.onboarding_data,
                      replaceProduct st.products pid product1⟩,
                     { fl with data_updated := true })
            | none => .ok (st, fl)
          else .ok (st, fl)
      | _, _, _ => .ok (st, fl)
  | .update_company_field field value =>
      match field, value with
      | some f, some v =>
          if f ≠ "" && v ≠ "" then
            let upd? : Except String (Option UpdateArgs) :=
              if f = "industry" then .ok (some { industry := .sval v })
              else if f = "capital_amount" then
                match (if pyIsDigit v then pyParseInt v else pyParseFloatTrunc v) with
                | some n => .ok (some { capital_amount := .nval n })
                | none =>
                    .error "ValueError: could not convert string in update_company_field"
              else if f = "invention_patent_count" then
                match pyParseInt v with
                | some n => .ok (some { invention_patent_count := .nval n })
                | none =>
                    .error "ValueError: invalid literal for int in update_company_field"
              else if f = "utility_patent_count" then
                match pyParseInt v with
                | some n => .ok (some { utility_patent_count := .nval n })
                | none =>
                    .error "ValueError: invalid literal for int in update_company_field"
              else if f = "certification_count" then
                match pyParseInt v with
                | some n => .ok (some { certification_count := .nval n })
                | none =>
                    .error "ValueError: invalid literal for int in update_company_field"
              else if f = "esg_certification" then
                .ok (some { esg_certification := .sval v })
              else .ok none
            match upd? with
            | .error e => .error e
            | .ok (some u) =>
                let p := update_onboarding_data st.onboarding_data u
                .ok (⟨st.status, p.1, st.products⟩, { fl with data_updated := true })
            | .ok none => .ok (st, fl)
          else .ok (st, fl)
      | _, _ => .ok (st, fl)
  | .view_data data_type =>
      let dt := data_type.getD "all"
      let resp :=
        if dt = "company" then get_company_summary st.onboarding_data
        else if dt = "products" then
          (let s := get_products_summary st.products
           if s = "" then "目前尚未新增任何產品。" else s)
        else
          get_company_summary st.onboarding_data ++ "\n\n" ++
          get_products_summary st.products
      .ok (st, { fl with
                 view_data_requested := true,
                 view_data_response :=
                   resp ++ "\n\n還需要修改資料嗎？或說「完成」結束。" })
  | .unknown _ => .ok (st, fl)

/-- The dispatch loop over the returned tool calls. -/
def dispatchCalls (st : ChatState) (fl : TurnFlags) :
    List ToolCall → Except String (ChatState × TurnFlags)
  | [] => .ok (st, fl)
  | c :: rest =>
      match dispatchCall st fl c with
      | .error e => .error e
      | .ok (st1, fl1) => dispatchCalls st1 fl1 rest

/-- Result of the extraction-oracle adapter (`extract_data_with_ai`): either
an error dict, or a message plus the parsed tool calls. -/
inductive AiResult
  | err (message : String)
  | ok (message : String) (function_calls : List ToolCall)
deriving DecidableEq, Repr

/-- Reply synthesis of `process_message` when the oracle supplied no reply
text (lines computing `response_message` from the post-dispatch state).
`current_stage` is the stage read before the dispatch loop. -/
def synthesize_reply (current_stage : Stage) (st1 : ChatState)
    (fl : TurnFlags) : String :=
  let progress := get_progress st1.onboarding_data st1.products
  let fields_done := progress.fields_completed
  let total_fields := progress.total_fields
  if fl.product_just_saved then
    "✅ 產品已成功新增！\n\n" ++ get_products_summary st1.products ++
    "\n\n還有其他產品要新增嗎？請提供新產品的**產品ID**，或說「完成」結束。"
  else if fl.data_updated then
    if current_stage = .COMPLETED then
      "✅ 已更新資料！\n\n" ++
      get_current_data_summary st1.onboarding_data st1.products ++ "\n\n" ++
      get_products_summary st1.products ++
      "\n\n還需要修改其他資料嗎？或說「完成」結束。"
    else
      let stage_name := (STAGE_TO_DISPLAY_NAME current_stage).getD "資料"
      let confirmation :=
        if fields_done = total_fields then
          "✅ 已記錄 " ++ stage_name ++ "！\n\n"
        else if fields_done + 2 ≥ total_fields then
          "✅ 已記錄 " ++ stage_name ++ "！【進度：" ++ toString fields_done ++
          "/" ++ toString total_fields ++ " 已完成】再 " ++
          toString (total_fields - fields_done) ++ " 項就完成基本資料了！\n\n"
        else
          "✅ 已記錄 " ++ stage_name ++ "！【進度：" ++ toString fields_done ++
          "/" ++ toString total_fields ++ " 已完成，還剩 " ++
          toString (total_fields - fields_done) ++ " 項】\n\n"
      confirmation ++ get_next_field_question st1.onboarding_data st1.products
  else if fl.product_field_collected then
    let product_field := st1.onboarding_data.current_product_field.getD .PRODUCT_ID
    let draft := get_product_draft st1.onboarding_data
    let filled_count := (draft.filter (fun p => p.2 ≠ "")).length
    let field_name := (PRODUCT_FIELD_TO_DISPLAY_NAME product_field).getD "資訊"
    "✅ 已記錄！【產品進度：" ++ toString filled_count ++
    "/6 已填寫】\n\n請提供 **" ++ field_name ++ "**"
  else
    get_next_field_question st1.onboarding_data st1.products

/-- Source `process_message`: resync, first-turn menu, oracle-error and
zero-tool-call recovery, tool-call dispatch, reply composition.  The stored
chat history is passed in as the list of prior message texts, and the oracle
response as `ai_result`.  An `Except.error` result is an exception escaping
`process_message`. -/
def process_message (st : ChatState) (history : List String)
    (user_message : String) (ai_result : AiResult) :
    Except String (ChatState × String × Bool) :=
  let r0 := sync_stage_with_data st.onboarding_data
  let st0 : ChatState := ⟨st.status, r0, st.products⟩
  if history.length = 0 then
    .ok (st0, first_turn_reply r0 st.products user_message, false)
  else
    let current_stage := get_current_stage r0
    match ai_result with
    | .err _ =>
        .ok (st0,
             "抱歉，我無法理解您的回答。請再次提供 **" ++
             (STAGE_TO_DISPLAY_NAME current_stage).getD "資料" ++ "**。",
             false)
    | .ok message function_calls =>
        if function_calls = [] then
          if current_stage = .PRODUCT then
            let product_field := r0.current_product_field.getD .PRODUCT_ID
            .ok (st0,
                 "請提供 **" ++
                 (PRODUCT_FIELD_TO_DISPLAY_NAME product_field).getD "產品資訊" ++
                 "**",
                 false)
          else
            .ok (st0,
                 "請提供 **" ++
                 (STAGE_TO_DISPLAY_NAME current_stage).getD "資料" ++ "**",
                 false)
        else
          match dispatchCalls st0 {} function_calls with
          | .error e => .error e
          | .ok (st1, fl) =>
              if fl.view_data_requested then
                .ok (st1, fl.view_data_response, false)
              else if fl.completed then
                .ok (st1,
                     (if message = "" then
                        "感謝您完成資料收集！您的公司資料已成功儲存。"
                      else message),
                     true)
              else if message = "" then
                .ok (st1, synthesize_reply current_stage st1 fl, false)
              else
                .ok (st1, message, false)

/-! Helper lemmas shared by the claim theorems. -/

/-- Helper: the stage computed by `sync_stage_with_data` depends only on the
six scalar data attributes. -/
theorem sync_stage_eq_of_data (r r' : OnboardingRec)
    (h1 : r'.industry = r.industry)
    (h2 : r'.capital_amount = r.capital_amount)
    (h3 : r'.invention_patent_count = r.invention_patent_count)
    (h4 : r'.utility_patent_count = r.utility_patent_count)
    (h5 : r'.certification_count = r.certification_count)
    (h6 : r'.esg_certification = r.esg_certification) :
    (sync_stage_with_data r').current_stage =
    (sync_stage_with_data r).current_stage := by
  simp only [sync_stage_with_data, h1, h2, h3, h4, h5, h6]
  split_ifs <;> rfl

/-- Helper: `sync_stage_with_data` never writes `industry`. -/
theorem sync_industry_eq (r : OnboardingRec) :
    (sync_stage_with_data r).industry = r.industry := by
  simp only [sync_stage_with_data]
  split_ifs <;> rfl

/-- Helper: `sync_stage_with_data` never writes `capital_amount`. -/
theorem sync_capital_eq (r : OnboardingRec) :
    (sync_stage_with_data r).capital_amount = r.capital_amount := by
  simp only [sync_stage_with_data]
  split_ifs <;> rfl

/-- Helper: `sync_stage_with_data` never writes `invention_patent_count`. -/
theorem sync_invention_eq (r : OnboardingRec) :
    (sync_stage_with_data r).invention_patent_count =
    r.invention_patent_count := by
  simp only [sync_stage_with_data]
  split_ifs <;> rfl

/-- Helper: `sync_stage_with_data` never writes `utility_patent_count`. -/
theorem sync_utility_eq (r : OnboardingRec) :
    (sync_stage_with_data r).utility_patent_count = r.utility_patent_count := by
  simp only [sync_stage_with_data]
  split_ifs <;> rfl

/-- Helper: `sync_stage_with_data` never writes `certification_count`. -/
theorem sync_certification_eq (r : OnboardingRec) :
    (sync_stage_with_data r).certification_count = r.certification_count := by
  simp only [sync_stage_with_data]
  split_ifs <;> rfl

/-- Helper: `sync_stage_with_data` never writes `esg_certification`. -/
theorem sync_esg_eq (r : OnboardingRec) :
    (sync_stage_with_data r).esg_certification = r.esg_certification := by
  simp only [sync_stage_with_data]
  split_ifs <;> rfl

/-- Helper: `sync_stage_with_data` only ever assigns one of the stages
INDUSTRY .. PRODUCT, never COMPLETED. -/
theorem sync_never_completed (r : OnboardingRec) :
    (sync_stage_with_data r).current_stage ≠ some .COMPLETED := by
  simp only [sync_stage_with_data]
  split_ifs <;> simp

/-- Helper: the `industry` statement of `update_onboarding_data` leaves the
two ESG columns alone. -/
theorem upd_industry_esg (a : SArg) (p : OnboardingRec × Bool) :
    (upd_industry a p).1.esg_certification = p.1.esg_certification ∧
    (upd_industry a p).1.esg_certification_count =
      p.1.esg_certification_count := by
  cases a with
  | sval s => simp only [upd_industry]; split_ifs <;> simp
  | absent => simp [upd_industry]
  | snull => simp [upd_industry]

/-- Helper: the `capital_amount` statement leaves the two ESG columns alone. -/
theorem upd_capital_esg (a : NArg) (p q : OnboardingRec × Bool)
    (h : upd_capital a p = .ok q) :
    q.1.esg_certification = p.1.esg_certification ∧
    q.1.esg_certification_count = p.1.esg_certification_count := by
  cases a with
  | nval n => simp only [upd_capital] at h; injection h with h; subst h; simp
  | nbad => simp only [upd_capital] at h; simp at h
  | absent => simp only [upd_capital] at h; injection h with h; subst h; simp
  | nnull => simp only [upd_capital] at h; injection h with h; subst h; simp

/-- Helper: the `invention_patent_count` statement leaves the ESG columns
alone. -/
theorem upd_invention_esg (a : NArg) (p q : OnboardingRec × Bool)
    (h : upd_invention a p = .ok q) :
    q.1.esg_certification = p.1.esg_certification ∧
    q.1.esg_certification_count = p.1.esg_certification_count := by
  cases a with
  | nval n => simp only [upd_invention] at h; injection h with h; subst h; simp
  | nbad => simp only [upd_invention] at h; simp at h
  | absent => simp only [upd_invention] at h; injection h with h; subst h; simp
  | nnull => simp only [upd_invention] at h; injection h with h; subst h; simp

/-- Helper: the `utility_patent_count` statement leaves the ESG columns
alone. -/
theorem upd_utility_esg (a : NArg) (p q : OnboardingRec × Bool)
    (h : upd_utility a p = .ok q) :
    q.1.esg_certification = p.1.esg_certification ∧
    q.1.esg_certification_count = p.1.esg_certification_count := by
  cases a with
  | nval n => simp only [upd_utility] at h; injection h with h; subst h; simp
  | nbad => simp only [upd_utility] at h; simp at h
  | absent => simp only [upd_utility] at h; injection h with h; subst h; simp
  | nnull => simp only [upd_utility] at h; injection h with h; subst h; simp

/-- Helper: the `certification_count` statement leaves the ESG columns
alone. -/
theorem upd_certification_esg (a : NArg) (p q : OnboardingRec × Bool)
    (h : upd_certification a p = .ok q) :
    q.1.esg_certification = p.1.esg_certification ∧
    q.1.esg_certification_count = p.1.esg_certification_count := by
  cases a with
  | nval n => simp only [upd_certification] at h; injection h with h; subst h; simp
  | nbad => simp only [upd_certification] at h; simp at h
  | absent => simp only [upd_certification] at h; injection h with h; subst h; simp
  | nnull => simp only [upd_certification] at h; injection h with h; subst h; simp

/-- Helper: a successful `update_onboarding_data` body either performed the
atomic ESG write (truthy string supplied) or left both ESG columns exactly as
they were. -/
theorem body_esg_cases (r : OnboardingRec) (args : UpdateArgs)
    (p : OnboardingRec × Bool)
    (hb : update_onboarding_data_body r args = .ok p) :
    (∃ s, args.esg_certification = .sval s ∧ s ≠ "" ∧
      p.1.esg_certification = some s ∧
      p.1.esg_certification_count = some (count_esg_certifications s : Int)) ∨
    (p.1.esg_certification = r.esg_certification ∧
     p.1.esg_certification_count = r.esg_certification_count) := by
  simp only [update_onboarding_data_body, bind, Except.bind] at hb
  cases h2 : upd_capital args.capital_amount (upd_industry args.industry (r, false)) with
  | error e => rw [h2] at hb; simp at hb
  | ok p2 =>
  rw [h2] at hb
  dsimp only at hb
  cases h3 : upd_invention args.invention_patent_count p2 with
  | error e => rw [h3] at hb; simp at hb
  | ok p3 =>
  rw [h3] at hb
  dsimp only at hb
  cases h4 : upd_utility args.utility_patent_count p3 with
  | error e => rw [h4] at hb; simp at hb
  | ok p4 =>
  rw [h4] at hb
  dsimp only at hb
  cases h5 : upd_certification args.certification_count p4 with
  | error e => rw [h5] at hb; simp at hb
  | ok p5 =>
  rw [h5] at hb
  simp only [pure, Except.pure, Except.ok.injEq] at hb
  subst hb
  obtain ⟨e1a, e1b⟩ := upd_industry_esg args.industry (r, false)
  obtain ⟨e2a, e2b⟩ := upd_capital_esg _ _ _ h2
  obtain ⟨e3a, e3b⟩ := upd_invention_esg _ _ _ h3
  obtain ⟨e4a, e4b⟩ := upd_utility_esg _ _ _ h4
  obtain ⟨e5a, e5b⟩ := upd_certification_esg _ _ _ h5
  have ea : p5.1.esg_certification = r.esg_certification := by
    rw [e5a, e4a, e3a, e2a, e1a]
  have eb : p5.1.esg_certification_count = r.esg_certification_count := by
    rw [e5b, e4b, e3b, e2b, e1b]
  cases hesg : args.esg_certification with
  | sval s =>
      by_cases hs : s = ""
      · right
        subst hs
        simp [upd_esg, ea, eb]
      · left
        exact ⟨s, rfl, hs, by simp [upd_esg, hs], by simp [upd_esg, hs]⟩
  | absent => right; simp [upd_esg, ea, eb]
  | snull => right; simp [upd_esg, ea, eb]

/-- Helper: one dispatched tool call changes the session status only if it is
`mark_completed` with a truthy `completed` argument. -/
theorem dispatchCall_status (st : ChatState) (fl : TurnFlags) (c : ToolCall)
    (st1 : ChatState) (fl1 : TurnFlags)
    (h : dispatchCall st fl c = .ok (st1, fl1)) :
    st1.status = st.status ∨ c = .mark_completed true := by
  cases c with
  | mark_completed b =>
      cases b with
      | true => right; rfl
      | false =>
          left
          simp only [dispatchCall] at h
          injection h with h
          injection h with h1 h2
          subst h1
          rfl
  | _ =>
      left
      simp only [dispatchCall] at h
      repeat' split at h
      all_goals first
        | (injection h with h; injection h with h1 h2; subst h1; rfl)
        | (injection h)

/-- Helper: the dispatch loop changes the session status only if the list
contains a `mark_completed true` call. -/
theorem dispatchCalls_status (calls : List ToolCall) :
    ∀ st fl st1 fl1, dispatchCalls st fl calls = .ok (st1, fl1) →
    st1.status = st.status ∨ (ToolCall.mark_completed true) ∈ calls := by
  induction calls with
  | nil =>
      intro st fl st1 fl1 h
      simp only [dispatchCalls] at h
      injection h with h
      injection h with h1 h2
      subst h1
      exact Or.inl rfl
  | cons c rest ih =>
      intro st fl st1 fl1 h
      simp only [dispatchCalls] at h
      cases hc : dispatchCall st fl c with
      | error e => rw [hc] at h; exact (Except.noConfusion h)
      | ok q =>
          rw [hc] at h
          obtain ⟨stm, flm⟩ := q
          rcases dispatchCall_status st fl c stm flm hc with hstat | hmark
          · rcases ih stm flm st1 fl1 h with h1 | h2
            · exact Or.inl (h1.trans hstat)
            · exact Or.inr (List.mem_cons_of_mem _ h2)
          · exact Or.inr (hmark ▸ List.mem_cons_self _ _)

/-- Helper: a successful `process_message` turn ends with session status
COMPLETED only if it already was COMPLETED or a `mark_completed true` call was
dispatched. -/
theorem process_status_origin (st : ChatState) (hist : List String)
    (um : String) (ai : AiResult) (out : ChatState × String × Bool)
    (h : process_message st hist um ai = .ok out)
    (hc : out.1.status = .COMPLETED) :
    st.status = .COMPLETED ∨
      ∃ m calls, ai = .ok m calls ∧ (ToolCall.mark_completed true) ∈ calls := by
  unfold process_message at h
  by_cases hl : hist.length = 0
  · rw [if_pos hl] at h
    injection h with h
    left
    rw [← h] at hc
    exact hc
  · rw [if_neg hl] at h
    dsimp only at h
    cases ai with
    | err msg =>
        dsimp only at h
        injection h with h
        left
        rw [← h] at hc
        exact hc
    | ok m calls =>
        dsimp only at h
        by_cases he : calls = []
        · rw [if_pos he] at h
          split at h <;> (injection h with h; left; rw [← h] at hc; exact hc)
        · rw [if_neg he] at h
          cases hd : dispatchCalls
              ⟨st.status, sync_stage_with_data st.onboarding_data, st.products⟩
              {} calls with
          | error e => rw [hd] at h; exact (Except.noConfusion h)
          | ok q =>
              rw [hd] at h
              obtain ⟨st1, fl⟩ := q
              dsimp only at h
              have hout : out.1 = st1 := by
                repeat' split at h
                all_goals (injection h with h; exact (congrArg Prod.fst h).symm)
              rcases dispatchCalls_status calls _ _ st1 fl hd with h1 | h2
              · left
                rw [hout] at hc
                rw [h1] at hc
                exact hc
              · right
                exact ⟨m, calls, rfl, h2⟩

/-- Helper: in-place row update never changes the number of product rows. -/
theorem replaceProduct_length (ps : List Product) (pid : String) (nw : Product) :
    (replaceProduct ps pid nw).length = ps.length := by
  induction ps with
  | nil => rfl
  | cons p rest ih => simp [replaceProduct]; split_ifs <;> simp [ih]

/-- Helper: a complete draft holds a truthy value for every product field. -/
theorem draft_complete_truthy (r : OnboardingRec) (f : ProductField)
    (hcomp : is_product_draft_complete r = true) :
    optStrTruthy (draftGet (get_product_draft r) (pfValue f)) = true :=
  List.all_eq_true.mp hcomp f (by cases f <;> simp [PRODUCT_FIELD_ORDER])

/-- Helper: when a truthy `esg_certification` string is supplied and the body
succeeds, the atomic ESG write did happen. -/
theorem body_esg_write (r : OnboardingRec) (args : UpdateArgs) (s : String)
    (p : OnboardingRec × Bool)
    (hesg : args.esg_certification = .sval s) (hs : s ≠ "")
    (hb : update_onboarding_data_body r args = .ok p) :
    p.1.esg_certification = some s ∧
    p.1.esg_certification_count = some (count_esg_certifications s : Int) := by
  simp only [update_onboarding_data_body, bind, Except.bind] at hb
  cases h2 : upd_capital args.capital_amount (upd_industry args.industry (r, false)) with
  | error e => rw [h2] at hb; simp at hb
  | ok p2 =>
  rw [h2] at hb
  dsimp only at hb
  cases h3 : upd_invention args.invention_patent_count p2 with
  | error e => rw [h3] at hb; simp at hb
  | ok p3 =>
  rw [h3] at hb
  dsimp only at hb
  cases h4 : upd_utility args.utility_patent_count p3 with
  | error e => rw [h4] at hb; simp at hb
  | ok p4 =>
  rw [h4] at hb
  dsimp only at hb
  cases h5 : upd_certification args.certification_count p4 with
  | error e => rw [h5] at hb; simp at hb
  | ok p5 =>
  rw [h5] at hb
  simp only [pure, Except.pure, Except.ok.injEq] at hb
  subst hb
  rw [hesg]
  simp [upd_esg, hs]

/-! Claim theorems. -/

/-- Claim C1 (amended).  The dispatcher performs no per-stage validation of
`update_company_data` arguments: one dispatched call is exactly resync,
followed by `update_onboarding_data` (which writes every truthy/non-null
attribute present in the arguments, whatever the current stage), followed by
one stage advance when at least one attribute was written — no rejection path
exists. -/
theorem C1_update_company_dispatch (status : SessionStatus)
    (r : OnboardingRec) (ps : List Product) (hist : List String)
    (um m : String) (args : UpdateArgs) (hh : hist ≠ []) :
    (process_message ⟨status, r, ps⟩ hist um
       (.ok m [.update_company_data args])).map (fun x => x.1) =
    .ok ⟨status,
         (let p := update_onboarding_data (sync_stage_with_data r) args
          if p.2 then advance_stage p.1 else p.1),
         ps⟩ := by
  cases hist with
  | nil => exact absurd rfl hh
  | cons a t =>
    simp only [process_message, List.length_cons, dispatchCalls, dispatchCall]
    cases hp : (update_onboarding_data (sync_stage_with_data r) args).2 <;>
      by_cases hm : m = "" <;>
      simp [hp, hm, Except.map]

/-- Claim C1, witness for the amended theorem at a concrete input. -/
theorem C1_witness :
    (["hi"] : List String) ≠ [] ∧
    (process_message ⟨.ACTIVE, { current_stage := some .INDUSTRY }, []⟩
       ["hi"] "x"
       (.ok "ok" [.update_company_data { industry := .sval "食品業" }])).map
       (fun x => x.1) =
    .ok ⟨.ACTIVE,
         (let p := update_onboarding_data
            (sync_stage_with_data { current_stage := some .INDUSTRY })
            { industry := .sval "食品業" }
          if p.2 then advance_stage p.1 else p.1),
         []⟩ :=
  ⟨by decide,
   C1_update_company_dispatch .ACTIVE { current_stage := some .INDUSTRY } []
     ["hi"] "x" "ok" { industry := .sval "食品業" } (by decide)⟩

/-- Claim C1, counterexample to the claim as stated: with the stage at
INDUSTRY, a dispatched `update_company_data` call whose arguments name only
`capital_amount` is not rejected — the dispatcher writes `capital_amount`
(an attribute not mapped to the INDUSTRY stage), leaves `industry` unset, and
advances the stage. -/
theorem C1_counterexample :
    process_message ⟨.ACTIVE, { current_stage := some .INDUSTRY }, []⟩
      ["hi"] "x"
      (.ok "ok" [.update_company_data { capital_amount := .nval 5000000 }]) =
    .ok (⟨.ACTIVE,
          { capital_amount := some 5000000,
            current_stage := some .CAPITAL_AMOUNT },
          []⟩,
         "ok", false) := rfl

/-- Claim C2 (confirmed).  The atomic ESG update: a successful update whose
arguments contain a truthy `esg_certification` string stores that string and
the separator count recomputed from it; the result never depends on any
`esg_certification_count` argument supplied in the same call; every update
call preserves the two-column consistency invariant; and the separator count
matches the spec's examples. -/
theorem C2_esg_atomic :
    (∀ (r : OnboardingRec) (args : UpdateArgs) (s : String),
       args.esg_certification = .sval s → s ≠ "" →
       (update_onboarding_data r args).2 = true →
       (update_onboarding_data r args).1.esg_certification = some s ∧
       (update_onboarding_data r args).1.esg_certification_count =
         some (count_esg_certifications s : Int)) ∧
    (∀ (r : OnboardingRec) (args : UpdateArgs) (c c' : NArg),
       update_onboarding_data r { args with esg_certification_count := c } =
       update_onboarding_data r { args with esg_certification_count := c' }) ∧
    (∀ (r : OnboardingRec) (args : UpdateArgs),
       esg_in_sync r → esg_in_sync (update_onboarding_data r args).1) ∧
    count_esg_certifications "ISO 14067, ISO 14046" = 2 ∧
    count_esg_certifications "ISO 14064;ISO 14067;ISO 14046" = 3 ∧
    count_esg_certifications "無" = 0 ∧
    count_esg_certifications "-" = 0 := by
  refine ⟨?_, ?_, ?_, by decide, by decide, by decide, by decide⟩
  · intro r args s hesg hs hsucc
    unfold update_onboarding_data at hsucc ⊢
    cases hb : update_onboarding_data_body r args with
    | error e => rw [hb] at hsucc; simp at hsucc
    | ok p =>
        dsimp only
        exact body_esg_write r args s p hesg hs hb
  · intro r args c c'
    rfl
  · intro r args h
    unfold esg_in_sync at *
    unfold update_onboarding_data
    cases hb : update_onboarding_data_body r args with
    | error e => exact h
    | ok p =>
        rcases body_esg_cases r args p hb with ⟨s, _, _, hpa, hpb⟩ | ⟨hpa, hpb⟩ <;>
          simp [hpa, hpb, h]

/-- Claim C2, witness: updating a fresh record with the spec's example string
while a bogus count argument of 99 is supplied in the same call. -/
theorem C2_witness :
    ("ISO 14067, ISO 14046" : String) ≠ "" ∧
    (update_onboarding_data {}
       { esg_certification := .sval "ISO 14067, ISO 14046",
         esg_certification_count := .nval 99 }).2 = true ∧
    ((update_onboarding_data {}
        { esg_certification := .sval "ISO 14067, ISO 14046",
          esg_certification_count := .nval 99 }).1.esg_certification =
       some "ISO 14067, ISO 14046" ∧
     (update_onboarding_data {}
        { esg_certification := .sval "ISO 14067, ISO 14046",
          esg_certification_count := .nval 99 }).1.esg_certification_count =
       some (count_esg_certifications "ISO 14067, ISO 14046" : Int)) :=
  ⟨by decide, by rfl,
   C2_esg_atomic.1 {}
     { esg_certification := .sval "ISO 14067, ISO 14046",
       esg_certification_count := .nval 99 }
     "ISO 14067, ISO 14046" rfl (by decide) (by rfl)⟩

/-- Claim C3 (confirmed).  `sync_stage_with_data` computes the stage purely
from the scalar data attributes (the state-machine columns do not influence
it), is idempotent on the stage, and after directly setting `capital_amount`
on a record whose `industry` is set (and whose `invention_patent_count` is
still unset, as it is for a record that was at the CAPITAL_AMOUNT stage) it
moves the stage to INVENTION_PATENT_COUNT. -/
theorem C3_resync_properties :
    (∀ (r : OnboardingRec) (s : Option Stage) (f : Option ProductField)
       (d : Option Draft),
       (sync_stage_with_data
         { r with current_stage := s, current_product_field := f,
                  current_product_draft := d }).current_stage =
       (sync_stage_with_data r).current_stage) ∧
    (∀ r : OnboardingRec,
       (sync_stage_with_data (sync_stage_with_data r)).current_stage =
       (sync_stage_with_data r).current_stage) ∧
    (∀ (r : OnboardingRec) (c : Int),
       optStrTruthy r.industry = true → r.invention_patent_count = none →
       (sync_stage_with_data
         { r with capital_amount := some c }).current_stage =
       some .INVENTION_PATENT_COUNT) := by
  refine ⟨?_, ?_, ?_⟩
  · intro r s f d
    exact sync_stage_eq_of_data r _ rfl rfl rfl rfl rfl rfl
  · intro r
    exact sync_stage_eq_of_data r _ (sync_industry_eq r) (sync_capital_eq r)
      (sync_invention_eq r) (sync_utility_eq r) (sync_certification_eq r)
      (sync_esg_eq r)
  · intro r c h1 h2
    simp [sync_stage_with_data, h1, h2]

/-- Claim C3, witness at concrete records. -/
theorem C3_witness :
    ((sync_stage_with_data
        { ({} : OnboardingRec) with
          current_stage := some Stage.CAPITAL_AMOUNT,
          current_product_field := (none : Option ProductField),
          current_product_draft := (none : Option Draft) }).current_stage =
      (sync_stage_with_data ({} : OnboardingRec)).current_stage) ∧
    ((sync_stage_with_data
        (sync_stage_with_data ({} : OnboardingRec))).current_stage =
      (sync_stage_with_data ({} : OnboardingRec)).current_stage) ∧
    optStrTruthy ({ industry := some "食品業" } : OnboardingRec).industry = true ∧
    (sync_stage_with_data
       { ({ industry := some "食品業" } : OnboardingRec) with
         capital_amount := some 5000000 }).current_stage =
      some Stage.INVENTION_PATENT_COUNT :=
  ⟨C3_resync_properties.1 {} (some Stage.CAPITAL_AMOUNT) none none,
   C3_resync_properties.2.1 {},
   by decide,
   C3_resync_properties.2.2 { industry := some "食品業" } 5000000
     (by decide) rfl⟩

/-- Claim C4 (amended).  The resync operation never assigns the COMPLETED
stage, and a turn can only end with session status COMPLETED if it already
was COMPLETED or the oracle response contained a `mark_completed` call with a
truthy `completed` argument.  (The stage itself is not persistent: each
turn's resync recomputes it from data, as the counterexample shows.) -/
theorem C4_completed_status_only_by_mark :
    (∀ r : OnboardingRec,
       (sync_stage_with_data r).current_stage ≠ some .COMPLETED) ∧
    (∀ (st : ChatState) (hist : List String) (um : String) (ai : AiResult)
       (out : ChatState × String × Bool),
       process_message st hist um ai = .ok out →
       out.1.status = .COMPLETED →
       st.status = .COMPLETED ∨
         ∃ m calls, ai = .ok m calls ∧
           (ToolCall.mark_completed true) ∈ calls) :=
  ⟨sync_never_completed, process_status_origin⟩

/-- Claim C4, counterexample to the claim as stated: a record whose stage was
set to COMPLETED (with all six attributes filled and the session status
COMPLETED) does not keep that stage across the next turn — the turn's opening
resync moves the stage back to PRODUCT even though the oracle returned no
tool call. -/
theorem C4_counterexample :
    process_message
      ⟨.COMPLETED,
       { industry := some "食品業", capital_amount := some 5000000,
         invention_patent_count := some 3, utility_patent_count := some 1,
         certification_count := some 2,
         esg_certification := some "ISO 14064, ISO 14067",
         esg_certification_count := some 2,
         current_stage := some .COMPLETED }, []⟩
      ["hi"] "x" (.ok "m" []) =
    .ok (⟨.COMPLETED,
          { industry := some "食品業", capital_amount := some 5000000,
            invention_patent_count := some 3, utility_patent_count := some 1,
            certification_count := some 2,
            esg_certification := some "ISO 14064, ISO 14067",
            esg_certification_count := some 2,
            current_stage := some .PRODUCT,
            current_product_field := some .PRODUCT_ID,
            current_product_draft := some [] }, []⟩,
         "請提供 **產品ID**", false) := rfl

/-- Claim C4, witness for the amended theorem: a fresh record never resyncs
to COMPLETED, and a turn that dispatched `mark_completed true` satisfies the
origin disjunction. -/
theorem C4_witness :
    (sync_stage_with_data ({} : OnboardingRec)).current_stage ≠
      some Stage.COMPLETED ∧
    (SessionStatus.ACTIVE = SessionStatus.COMPLETED ∨
      ∃ m calls,
        (AiResult.ok "m" [ToolCall.mark_completed true]) = AiResult.ok m calls ∧
        ToolCall.mark_completed true ∈ calls) :=
  ⟨C4_completed_status_only_by_mark.1 {},
   C4_completed_status_only_by_mark.2 ⟨.ACTIVE, {}, []⟩ ["hi"] "x"
     (.ok "m" [.mark_completed true])
     (⟨.COMPLETED, { current_stage := some .COMPLETED }, []⟩, "m", true)
     rfl rfl⟩

/-- Claim C5 (amended).  On an oracle response with an empty tool-call list,
the turn mutates nothing beyond the turn-opening resync: the stored record
equals `sync_stage_with_data` of the original, products and session status
are unchanged, and the reply re-requests the currently expected field (the
display name of the current product field in the PRODUCT stage, else that of
the stage). -/
theorem C5_zero_tool_calls (status : SessionStatus) (r : OnboardingRec)
    (ps : List Product) (hist : List String) (um m : String)
    (hh : hist ≠ []) :
    process_message ⟨status, r, ps⟩ hist um (.ok m []) =
    .ok (⟨status, sync_stage_with_data r, ps⟩,
         (if get_current_stage (sync_stage_with_data r) = .PRODUCT then
            "請提供 **" ++ (PRODUCT_FIELD_TO_DISPLAY_NAME
              ((sync_stage_with_data r).current_product_field.getD
                .PRODUCT_ID)).getD "產品資訊" ++ "**"
          else
            "請提供 **" ++ (STAGE_TO_DISPLAY_NAME
              (get_current_stage (sync_stage_with_data r))).getD "資料" ++ "**"),
         false) := by
  cases hist with
  | nil => exact absurd rfl hh
  | cons a t =>
    simp [process_message]
    split_ifs <;> rfl

/-- Claim C5, witness at a fresh record. -/
theorem C5_witness :
    (["hi"] : List String) ≠ [] ∧
    process_message ⟨.ACTIVE, ({} : OnboardingRec), []⟩ ["hi"] "x"
      (.ok "ok" []) =
    .ok (⟨.ACTIVE, sync_stage_with_data ({} : OnboardingRec), []⟩,
         (if get_current_stage (sync_stage_with_data ({} : OnboardingRec)) =
              Stage.PRODUCT then
            "請提供 **" ++ (PRODUCT_FIELD_TO_DISPLAY_NAME
              ((sync_stage_with_data ({} : OnboardingRec)).current_product_field.getD
                ProductField.PRODUCT_ID)).getD "產品資訊" ++ "**"
          else
            "請提供 **" ++ (STAGE_TO_DISPLAY_NAME
              (get_current_stage
                (sync_stage_with_data ({} : OnboardingRec)))).getD "資料" ++ "**"),
         false) :=
  ⟨by decide, C5_zero_tool_calls .ACTIVE {} [] ["hi"] "x" "ok" (by decide)⟩

/-- Claim C5, counterexample to the claim as stated: for an out-of-sync
stored record (stage says CAPITAL_AMOUNT but `industry` is still unset), the
turn with an empty tool-call list does not leave the record byte-for-byte
unchanged — the opening resync rewrites `current_stage`. -/
theorem C5_counterexample :
    process_message ⟨.ACTIVE, { current_stage := some .CAPITAL_AMOUNT }, []⟩
      ["hi"] "x" (.ok "" []) =
    .ok (⟨.ACTIVE, { current_stage := some .INDUSTRY }, []⟩,
         "請提供 **產業別**", false) ∧
    ({ current_stage := some Stage.INDUSTRY } : OnboardingRec) ≠
      { current_stage := some Stage.CAPITAL_AMOUNT } :=
  ⟨rfl, by decide⟩

/-- Claim C6 (amended).  A Product is never created or updated from an
incomplete draft (`save_product_from_draft` is a no-op below six populated
values); a bulk `add_complete_product` with any empty field performs no write
and `add_product` computes exactly the missing display names (price maps to
「價格」); and dispatching such a call through `process_message` leaves the
state untouched beyond the opening resync — but the computed missing-name
list is discarded by `process_message` rather than reported. -/
theorem C6_product_completeness_gate :
    (∀ (r : OnboardingRec) (ps : List Product),
       is_product_draft_complete r = false →
       save_product_from_draft r ps = (r, ps, none)) ∧
    (∀ (ps : List Product) (a : ProdArgs),
       add_product_missing a ≠ [] →
       add_product ps a = (ps, none, false, add_product_missing a)) ∧
    (∀ a : ProdArgs, prodArgTruthy a.price = false →
       "價格" ∈ add_product_missing a) ∧
    (∀ (status : SessionStatus) (r : OnboardingRec) (ps : List Product)
       (hist : List String) (um m : String) (a : ProdArgs),
       hist ≠ [] → add_product_missing a ≠ [] →
       (process_message ⟨status, r, ps⟩ hist um
          (.ok m [.add_complete_product a])).map (fun x => x.1) =
       .ok ⟨status, sync_stage_with_data r, ps⟩) := by
  refine ⟨?_, ?_, ?_, ?_⟩
  · intro r ps h
    simp [save_product_from_draft, h]
  · intro ps a h
    simp [add_product, h]
  · intro a h
    refine List.mem_map.mpr ⟨("price", "價格"),
      List.mem_filter.mpr ⟨by simp [required_fields], ?_⟩, rfl⟩
    simp [prodArgGet, h]
  · intro status r ps hist um m a hh hmiss
    cases hist with
    | nil => exact absurd rfl hh
    | cons x t =>
      simp only [process_message, List.length_cons, dispatchCalls, dispatchCall]
      by_cases hm : m = "" <;>
        simp [add_product, hmiss, hm, Except.map]

/-- Claim C6, witness: an incomplete draft and a bulk call whose `price` is
absent, also dispatched through a turn. -/
theorem C6_witness :
    is_product_draft_complete
      { current_product_draft := some [("product_id", "P1")] } = false ∧
    save_product_from_draft
      { current_product_draft := some [("product_id", "P1")] } [] =
      ({ current_product_draft := some [("product_id", "P1")] }, [], none) ∧
    add_product_missing
      { product_id := some "P1", product_name := some "N",
        main_raw_materials := some "M", product_standard := some "S",
        technical_advantages := some "T" } ≠ [] ∧
    add_product []
      { product_id := some "P1", product_name := some "N",
        main_raw_materials := some "M", product_standard := some "S",
        technical_advantages := some "T" } =
      ([], none, false,
       add_product_missing
         { product_id := some "P1", product_name := some "N",
           main_raw_materials := some "M", product_standard := some "S",
           technical_advantages := some "T" }) ∧
    "價格" ∈ add_product_missing
      { product_id := some "P1", product_name := some "N",
        main_raw_materials := some "M", product_standard := some "S",
        technical_advantages := some "T" } ∧
    (process_message ⟨.ACTIVE, ({} : OnboardingRec), []⟩ ["hi"] "x"
       (.ok "ok" [.add_complete_product
         { product_id := some "P1", product_name := some "N",
           main_raw_materials := some "M", product_standard := some "S",
           technical_advantages := some "T" }])).map (fun x => x.1) =
      .ok ⟨.ACTIVE, sync_stage_with_data ({} : OnboardingRec), []⟩ :=
  ⟨by decide,
   C6_product_completeness_gate.1
     { current_product_draft := some [("product_id", "P1")] } [] (by decide),
   by decide,
   C6_product_completeness_gate.2.1 []
     { product_id := some "P1", product_name := some "N",
       main_raw_materials := some "M", product_standard := some "S",
       technical_advantages := some "T" } (by decide),
   C6_product_completeness_gate.2.2.1
     { product_id := some "P1", product_name := some "N",
       main_raw_materials := some "M", product_standard := some "S",
       technical_advantages := some "T" } (by decide),
   C6_product_completeness_gate.2.2.2 .ACTIVE {} [] ["hi"] "x" "ok"
     { product_id := some "P1", product_name := some "N",
       main_raw_materials := some "M", product_standard := some "S",
       technical_advantages := some "T" } (by decide) (by decide)⟩

/-- Claim C6, counterexample to the claim as stated: dispatching a bulk
`add_complete_product` whose `price` is empty creates no Product row — but
the reply the user receives is just the oracle's own message ("ok" here); the
missing display name 「價格」 computed by `add_product` is discarded by
`process_message` and never reported. -/
theorem C6_counterexample :
    process_message
      ⟨.ACTIVE,
       { industry := some "食品業", capital_amount := some 5000000,
         invention_patent_count := some 3, utility_patent_count := some 1,
         certification_count := some 2,
         esg_certification := some "ISO 14064, ISO 14067",
         esg_certification_count := some 2,
         current_stage := some .PRODUCT,
         current_product_field := some .PRODUCT_ID,
         current_product_draft := some [] }, []⟩
      ["hi"] "x"
      (.ok "ok" [.add_complete_product
        { product_id := some "P1", product_name := some "N",
          main_raw_materials := some "M", product_standard := some "S",
          technical_advantages := some "T" }]) =
    .ok (⟨.ACTIVE,
          { industry := some "食品業", capital_amount := some 5000000,
            invention_patent_count := some 3, utility_patent_count := some 1,
            certification_count := some 2,
            esg_certification := some "ISO 14064, ISO 14067",
            esg_certification_count := some 2,
            current_stage := some .PRODUCT,
            current_product_field := some .PRODUCT_ID,
            current_product_draft := some [] }, []⟩,
         "ok", false) := rfl

/-- Claim C7 (confirmed).  Adding a product whose `product_id` already exists
in the record updates that row in place (bulk path: each field overwritten
only by a truthy incoming value; flush path: the overwriting draft values are
all guaranteed non-empty by the completeness gate) and never creates a second
row (the row count is unchanged). -/
theorem C7_duplicate_product_merge :
    (∀ (ps : List Product) (a : ProdArgs) (pid : String) (old : Product),
       a.product_id = some pid → pid ≠ "" →
       findProduct ps pid = some old → add_product_missing a = [] →
       add_product ps a =
         (replaceProduct ps pid
           { old with
             product_name := orTruthy a.product_name old.product_name
             price := orTruthy a.price old.price
             main_raw_materials :=
               orTruthy a.main_raw_materials old.main_raw_materials
             product_standard :=
               orTruthy a.product_standard old.product_standard
             technical_advantages :=
               orTruthy a.technical_advantages old.technical_advantages },
          some { old with
             product_name := orTruthy a.product_name old.product_name
             price := orTruthy a.price old.price
             main_raw_materials :=
               orTruthy a.main_raw_materials old.main_raw_materials
             product_standard :=
               orTruthy a.product_standard old.product_standard
             technical_advantages :=
               orTruthy a.technical_advantages old.technical_advantages },
          true, []) ∧
       (add_product ps a).1.length = ps.length) ∧
    (∀ (r : OnboardingRec) (ps : List Product) (pid : String) (old : Product),
       is_product_draft_complete r = true →
       draftGet (get_product_draft r) "product_id" = some pid → pid ≠ "" →
       findProduct ps pid = some old →
       save_product_from_draft r ps =
         (reset_product_draft r,
          replaceProduct ps pid
            { old with
              product_name := draftGet (get_product_draft r) "product_name"
              price := draftGet (get_product_draft r) "price"
              main_raw_materials :=
                draftGet (get_product_draft r) "main_raw_materials"
              product_standard :=
                draftGet (get_product_draft r) "product_standard"
              technical_advantages :=
                draftGet (get_product_draft r) "technical_advantages" },
          some { old with
              product_name := draftGet (get_product_draft r) "product_name"
              price := draftGet (get_product_draft r) "price"
              main_raw_materials :=
                draftGet (get_product_draft r) "main_raw_materials"
              product_standard :=
                draftGet (get_product_draft r) "product_standard"
              technical_advantages :=
                draftGet (get_product_draft r) "technical_advantages" }) ∧
       (save_product_from_draft r ps).2.1.length = ps.length ∧
       (∀ f : ProductField,
          optStrTruthy (draftGet (get_product_draft r) (pfValue f)) = true)) := by
  refine ⟨?_, ?_⟩
  · intro ps a pid old hpid hne hfind hmiss
    refine ⟨?_, ?_⟩
    · simp [add_product, hmiss, hpid, hne, hfind]
    · simp [add_product, hmiss, hpid, hne, hfind, replaceProduct_length]
  · intro r ps pid old hcomp hpid hne hfind
    refine ⟨?_, ?_, fun f => draft_complete_truthy r f hcomp⟩
    · simp [save_product_from_draft, hcomp, hpid, hne, hfind]
    · simp [save_product_from_draft, hcomp, hpid, hne, hfind,
        replaceProduct_length]

/-- Claim C7, witness: merging into an existing row on both the bulk path and
the flush path at concrete inputs. -/
theorem C7_witness :
    findProduct
      [{ product_id := some "P1", product_name := some "N0",
         price := some "10", main_raw_materials := some "M0",
         product_standard := some "S0", technical_advantages := some "T0" }]
      "P1" =
      some { product_id := some "P1", product_name := some "N0",
             price := some "10", main_raw_materials := some "M0",
             product_standard := some "S0",
             technical_advantages := some "T0" } ∧
    (add_product
       [{ product_id := some "P1", product_name := some "N0",
          price := some "10", main_raw_materials := some "M0",
          product_standard := some "S0", technical_advantages := some "T0" }]
       { product_id := some "P1", product_name := some "N1",
         price := some "11", main_raw_materials := some "M1",
         product_standard := some "S1",
         technical_advantages := some "T1" }).1.length = 1 ∧
    (save_product_from_draft
       { current_product_field := some .PRODUCT_ID,
         current_product_draft := some
           [("product_id", "P1"), ("product_name", "N2"), ("price", "12"),
            ("main_raw_materials", "M2"), ("product_standard", "S2"),
            ("technical_advantages", "T2")] }
       [{ product_id := some "P1", product_name := some "N0",
          price := some "10", main_raw_materials := some "M0",
          product_standard := some "S0",
          technical_advantages := some "T0" }]).2.1.length = 1 :=
  ⟨by decide,
   (C7_duplicate_product_merge.1
     [{ product_id := some "P1", product_name := some "N0",
        price := some "10", main_raw_materials := some "M0",
        product_standard := some "S0", technical_advantages := some "T0" }]
     { product_id := some "P1", product_name := some "N1",
       price := some "11", main_raw_materials := some "M1",
       product_standard := some "S1", technical_advantages := some "T1" }
     "P1"
     { product_id := some "P1", product_name := some "N0",
       price := some "10", main_raw_materials := some "M0",
       product_standard := some "S0", technical_advantages := some "T0" }
     rfl (by decide) (by decide) (by decide)).2,
   (C7_duplicate_product_merge.2
     { current_product_field := some .PRODUCT_ID,
       current_product_draft := some
         [("product_id", "P1"), ("product_name", "N2"), ("price", "12"),
          ("main_raw_materials", "M2"), ("product_standard", "S2"),
          ("technical_advantages", "T2")] }
     [{ product_id := some "P1", product_name := some "N0",
        price := some "10", main_raw_materials := some "M0",
        product_standard := some "S0", technical_advantages := some "T0" }]
     "P1"
     { product_id := some "P1", product_name := some "N0",
       price := some "10", main_raw_materials := some "M0",
       product_standard := some "S0", technical_advantages := some "T0" }
     (by decide) (by decide) (by decide) (by decide)).2.1⟩

/-- Claim C8 (amended).  A dispatched `collect_product_field` call with a
truthy field/value pair writes that pair into the draft whatever the
record's `current_product_field` is (no match check exists); afterwards, if
the draft holds all six truthy values the product is flushed, else
`advance_product_field` runs (moving to the next field, or staying on the
last one). -/
theorem C8_collect_dispatch (status : SessionStatus) (r : OnboardingRec)
    (ps : List Product) (hist : List String) (um m f v : String)
    (hh : hist ≠ []) (hf : f ≠ "") (hv : v ≠ "") :
    (process_message ⟨status, r, ps⟩ hist um
      (.ok m [.collect_product_field (some f) (some v)])).map (fun x => x.1) =
    .ok (let r1 := update_product_draft (sync_stage_with_data r) f v
         if is_product_draft_complete r1 then
           ⟨status, (save_product_from_draft r1 ps).1,
            (save_product_from_draft r1 ps).2.1⟩
         else ⟨status, (advance_product_field r1).1, ps⟩) := by
  cases hist with
  | nil => exact absurd rfl hh
  | cons a t =>
    simp only [process_message, List.length_cons, dispatchCalls, dispatchCall]
    by_cases hc : is_product_draft_complete
        (update_product_draft (sync_stage_with_data r) f v) <;>
      cases hs : (save_product_from_draft
        (update_product_draft (sync_stage_with_data r) f v) ps).2.2 <;>
      by_cases hm : m = "" <;>
      simp [hf, hv, hc, hs, hm, Except.map]

/-- Claim C8, witness at a fresh record. -/
theorem C8_witness :
    (["hi"] : List String) ≠ [] ∧ ("price" : String) ≠ "" ∧
    ("100" : String) ≠ "" ∧
    (process_message ⟨.ACTIVE, ({} : OnboardingRec), []⟩ ["hi"] "x"
      (.ok "ok" [.collect_product_field (some "price") (some "100")])).map
      (fun x => x.1) =
    .ok (let r1 := update_product_draft
           (sync_stage_with_data ({} : OnboardingRec)) "price" "100"
         if is_product_draft_complete r1 then
           ⟨.ACTIVE, (save_product_from_draft r1 []).1,
            (save_product_from_draft r1 []).2.1⟩
         else ⟨.ACTIVE, (advance_product_field r1).1, []⟩) :=
  ⟨by decide, by decide, by decide,
   C8_collect_dispatch .ACTIVE {} [] ["hi"] "x" "ok" "price" "100"
     (by decide) (by decide) (by decide)⟩

/-- Claim C8, counterexample to the claim as stated: with
`current_product_field = PRODUCT_ID`, a `collect_product_field` call naming
the mismatched field "price" is not rejected — the pair is written into the
draft and the field pointer advances. -/
theorem C8_counterexample :
    process_message
      ⟨.ACTIVE,
       { industry := some "食品業", capital_amount := some 5000000,
         invention_patent_count := some 3, utility_patent_count := some 1,
         certification_count := some 2,
         esg_certification := some "ISO 14064, ISO 14067",
         esg_certification_count := some 2,
         current_stage := some .PRODUCT,
         current_product_field := some .PRODUCT_ID,
         current_product_draft := some [] }, []⟩
      ["hi"] "x"
      (.ok "ok" [.collect_product_field (some "price") (some "100")]) =
    .ok (⟨.ACTIVE,
          { industry := some "食品業", capital_amount := some 5000000,
            invention_patent_count := some 3, utility_patent_count := some 1,
            certification_count := some 2,
            esg_certification := some "ISO 14064, ISO 14067",
            esg_certification_count := some 2,
            current_stage := some .PRODUCT,
            current_product_field := some .PRODUCT_NAME,
            current_product_draft := some [("price", "100")] }, []⟩,
         "ok", false) := rfl

/-- Claim C9: the code contradicts the claim.  A dispatched
`update_company_field` call naming the integer-typed field `capital_amount`
with the value "abc" — which parses as neither int nor float — raises an
uncaught ValueError out of `process_message` (the coercion at the dispatch
site is outside any try/except), instead of re-prompting. -/
theorem C9_uncaught_value_error :
    process_message ⟨.ACTIVE, ({} : OnboardingRec), []⟩ ["hi"] "x"
      (.ok "ok" [.update_company_field (some "capital_amount") (some "abc")]) =
    .error "ValueError: could not convert string in update_company_field" := rfl

/-- Claim C10 (confirmed).  Resync preserves an in-progress product draft:
when `current_product_field` is set, `sync_stage_with_data` leaves both the
field pointer and the draft contents unchanged; only when all six attributes
are populated and the field pointer is unset does it reset the pointer to
PRODUCT_ID and clear the draft (while setting the stage to PRODUCT). -/
theorem C10_resync_preserves_draft :
    (∀ (r : OnboardingRec) (pf : ProductField),
       r.current_product_field = some pf →
       (sync_stage_with_data r).current_product_field = some pf ∧
       (sync_stage_with_data r).current_product_draft =
         r.current_product_draft) ∧
    (∀ r : OnboardingRec,
       optStrTruthy r.industry = true →
       r.capital_amount.isNone = false →
       r.invention_patent_count.isNone = false →
       r.utility_patent_count.isNone = false →
       r.certification_count.isNone = false →
       optStrTruthy r.esg_certification = true →
       r.current_product_field = none →
       sync_stage_with_data r =
         { r with current_stage := some .PRODUCT,
                  current_product_field := some .PRODUCT_ID,
                  current_product_draft := some ([] : Draft) }) := by
  refine ⟨?_, ?_⟩
  · intro r pf h
    constructor
    · simp only [sync_stage_with_data]
      split_ifs <;> simp_all
    · simp only [sync_stage_with_data]
      split_ifs <;> simp_all
  · intro r h1 h2 h3 h4 h5 h6 h7
    simp [sync_stage_with_data, h1, h2, h3, h4, h5, h6, h7]

/-- Claim C10, witness: a record with an in-progress draft, and a fully
populated record with no field pointer. -/
theorem C10_witness :
    ((sync_stage_with_data
        { current_product_field := some ProductField.PRICE,
          current_product_draft := some [("price", "9")] }).current_product_field =
       some ProductField.PRICE ∧
     (sync_stage_with_data
        { current_product_field := some ProductField.PRICE,
          current_product_draft := some [("price", "9")] }).current_product_draft =
       OnboardingRec.current_product_draft
         { current_product_field := some ProductField.PRICE,
           current_product_draft := some [("price", "9")] }) ∧
    sync_stage_with_data
      { industry := some "食品業", capital_amount := some 5000000,
        invention_patent_count := some 3, utility_patent_count := some 1,
        certification_count := some 2,
        esg_certification := some "ISO 14064, ISO 14067",
        esg_certification_count := some 2 } =
    { ({ industry := some "食品業", capital_amount := some 5000000,
         invention_patent_count := some 3, utility_patent_count := some 1,
         certification_count := some 2,
         esg_certification := some "ISO 14064, ISO 14067",
         esg_certification_count := some 2 } : OnboardingRec) with
      current_stage := some Stage.PRODUCT,
      current_product_field := some ProductField.PRODUCT_ID,
      current_product_draft := some ([] : Draft) } :=
  ⟨C10_resync_preserves_draft.1
     { current_product_field := some ProductField.PRICE,
       current_product_draft := some [("price", "9")] }
     ProductField.PRICE rfl,
   C10_resync_preserves_draft.2
     { industry := some "食品業", capital_amount := some 5000000,
       invention_patent_count := some 3, utility_patent_count := some 1,
       certification_count := some 2,
       esg_certification := some "ISO 14064, ISO 14067",
       esg_certification_count := some 2 }
     (by decide) rfl rfl rfl rfl (by decide) rfl⟩

end ChatbotHandler
